import Mathlib

/-!
Shallow embedding of the load-generation client in
`src/client/client_tests.py` (SkyhighSecurity/SwgTestSuite), together with
theorems checking the design document's claims about it.

Python floats are modelled as `ℚ` (every size, weight and timestamp in play
is exactly representable), machine integers as `Nat`, random draws and I/O
outcomes as explicit parameters, unbounded loops as fuel-indexed recursion,
and a raised exception as an `Except` error value.
-/

namespace SwgClient

/-- Python's built-in `abs` on a float, modelled on `ℚ`. -/
def pyAbs (q : ℚ) : ℚ := if q < 0 then -q else q

/-- Python's built-in `int(...)` on a float: truncation toward zero. It is
only applied to non-negative values here, where truncation is the floor
`num / den`. -/
def pyInt (q : ℚ) : Nat := (q.num / (q.den : Int)).toNat

/-- A Python exception raised by the selector. `valueError` is the
`ValueError` of a failed tuple unpacking; `indexError` is the `IndexError`
of `random.choice` on an empty sequence. -/
inductive PyErr where
  | valueError
  | indexError
deriving DecidableEq, Repr

/-- The suffix of a character list after its last `'.'` (the whole list when
no `'.'` occurs): `path.split('.')[-1]` in Python. -/
def lastDotSegment : List Char → List Char → List Char
  | acc, [] => acc
  | acc, c :: rest =>
    if c = '.' then lastDotSegment [] rest
    else lastDotSegment (acc ++ [c]) rest

/-- Character-by-character lowercasing (`str.lower` restricted to ASCII,
which is all the manifest paths use). -/
def lowerChars : List Char → List Char
  | [] => []
  | c :: rest => c.toLower :: lowerChars rest

/-- The expression `path.split('.')[-1].lower()` from `create_request_url`
(client_tests.py line 71): the file extension, lowercased. -/
def fileType (path : String) : String :=
  ⟨lowerChars (lastDotSegment [] path.data)⟩

/-- The `file_weights` dictionary lookup `file_weights.get(ftype, 0.0)`
(lines 81-90): bin ↦ 0.4, zip ↦ 0.4, docx ↦ 0.2, anything else ↦ 0. -/
def file_weights (ftype : String) : ℚ :=
  if ftype = "bin" then 2/5
  else if ftype = "zip" then 2/5
  else if ftype = "docx" then 1/5
  else 0

/-- The `for i, (path, size) in enumerate(config)` tagging (lines 70-71):
each manifest entry paired with its index and its file type. -/
def tag_files (config : List (String × ℚ)) : List (Nat × String × ℚ × String) :=
  config.enum.map (fun p => (p.1, p.2.1, p.2.2, fileType p.2.1))

/-- The closeness test
`abs(size - avg_object_size_mb) < 0.5 * avg_object_size_mb` (line 72). -/
def close_pred (avg : ℚ) (e : Nat × String × ℚ × String) : Bool :=
  decide (pyAbs (e.2.2.1 - avg) < (1/2) * avg)

/-- List `close_files` (lines 67-73): entries whose size is strictly within
±50% of the target average size. -/
def close_files (config : List (String × ℚ)) (avg : ℚ) :
    List (Nat × String × ℚ × String) :=
  (tag_files config).filter (close_pred avg)

/-- List `other_files` (lines 68-75): the remaining entries. -/
def other_files (config : List (String × ℚ)) (avg : ℚ) :
    List (Nat × String × ℚ × String) :=
  (tag_files config).filter (fun e => !(close_pred avg e))

/-- Line 78: `candidate_files = close_files if close_files else other_files`. -/
def candidate_files (config : List (String × ℚ)) (avg : ℚ) :
    List (Nat × String × ℚ × String) :=
  if close_files config avg = [] then other_files config avg
  else close_files config avg

/-- List `weighted_files` (lines 88-92): for each candidate whose type weight is
positive, `int(weight * 100)` copies of its index. -/
def weighted_files (cands : List (Nat × String × ℚ × String)) : List Nat :=
  (cands.map (fun c =>
    let w := file_weights c.2.2.2
    if 0 < w then List.replicate (pyInt (w * 100)) c.1 else [])).flatten

/-- Lines 94-98 of `create_request_url`: the index selection. The random
draw of `random.choice` is modelled by the parameter `k`, reduced modulo the
pool size, so every pool element is reachable.

The fallback branch (line 96) is
`random.choice([i for i, _, _ in config])`: each `config` entry is a
*pair* `(path, size)`, so the three-name unpacking `i, _, _` raises
`ValueError` on the first entry whenever `config` is non-empty; when
`config` is empty the comprehension yields `[]` and `random.choice([])`
raises `IndexError`. The branch therefore always raises. -/
def select_index (config : List (String × ℚ)) (avg : ℚ) (k : Nat) :
    Except PyErr Nat :=
  let pool := weighted_files (candidate_files config avg)
  if pool = [] then
    if config = [] then .error .indexError else .error .valueError
  else .ok (pool.getD (k % pool.length) 0)

/-- Function `create_request_url` (lines 64-104). `k` models the `random.choice`
draw and `r` models the `random.random()` draw in `[0,1)` used for the
scheme choice (line 103). -/
def create_request_url (config : List (String × ℚ)) (server_ip : String)
    (https_percent : ℚ) (avg : ℚ) (k : Nat) (r : ℚ) : Except PyErr String :=
  match select_index config avg k with
  | .error e => .error e
  | .ok index =>
    let path := (config.getD index ("", 0)).1
    let scheme := if r < https_percent / 100 then "https" else "http"
    let port : Nat := if scheme = "https" then 8443 else 8080
    .ok (scheme ++ "://" ++ server_ip ++ ":" ++ toString port ++ "/" ++ path)

example : fileType "a.BiN" = "bin" := by decide
example : fileType "noext" = "noext" := rfl

/-- The outcome of one HTTP GET as seen by `fetch_url` (lines 11-18): either
a response whose body was fully read (`bodyBytes` bytes on the wire), with
the `Content-Length` header value when the server declared one, or a raised
exception (connection failure, timeout, TLS failure, malformed response). -/
inductive FetchOutcome where
  | success (contentLength : Option Nat) (bodyBytes : Nat)
  | failure (msg : String)

/-- Function `fetch_url` (lines 11-18). On success it returns
`response.content_length or 0`: the declared `Content-Length` (which is `0`
both when the header says `0` and when it is absent, since `None or 0` and
`0 or 0` are both `0`), never the number of body bytes actually read. Any
exception is caught, logged, and yields `0`. -/
def fetch_url : FetchOutcome → Nat
  | .success contentLength _ => contentLength.getD 0
  | .failure _ => 0

/-- The inputs one iteration of `connection_worker`'s loop body consumes:
the result of `create_request_url` and, when selection succeeded, the fetch
outcome. -/
structure WorkerIterInput where
  sel : Except PyErr Nat
  outcome : FetchOutcome

/-- One iteration of `connection_worker`'s loop body (lines 107-115): build
a URL, fetch it, send `(data_size, 1)` down the stats pipe. The first
component is the sample sent (none when an exception escaped the body — it
is caught at line 113, logged, and followed by a 0.1 s sleep); the second is
whether the loop continues, which is always `true`: the loop is
`while True:` with no `break` and no deadline test. -/
def connection_worker_step (inp : WorkerIterInput) : Option (Nat × Nat) × Bool :=
  match inp.sel with
  | .error _ => (none, true)
  | .ok _ => (some (fetch_url inp.outcome, 1), true)

/-- The loop guard of `connection_worker` (line 107). The source is
`while True:`; the worker is given no deadline and reads no clock, so the
guard is the constant `true`, whatever the elapsed time and the configured
duration are. -/
def connection_worker_continue (_elapsed _duration : ℚ) : Bool := true

/-- The loop of `connection_worker` run for `fuel` iterations against a stream of
per-iteration inputs: the sample each iteration sent (none when the body
raised). The loop itself never stops; the fuel only truncates the model. -/
def connection_worker_run : Nat → (Nat → WorkerIterInput) → List (Option (Nat × Nat))
  | 0, _ => []
  | n + 1, env =>
    (connection_worker_step (env 0)).1 ::
      connection_worker_run n (fun i => env (i + 1))

/-- The supervisor-side state of one metrics pipe
(`multiprocessing.Pipe()` parent end): the samples buffered in it, and
whether the peer (child) end has been closed. -/
structure Pipe where
  pending : List (Nat × Nat)
  closed : Bool

/-- Method `pipe.poll()`: true when a sample is buffered, and also — this is the
standard `multiprocessing.Connection` behaviour — when the peer end is
closed (the EOF itself is readable). -/
def Pipe.poll (p : Pipe) : Bool := !p.pending.isEmpty || p.closed

/-- Method `pipe.recv()`: pops the oldest buffered sample; on a drained pipe whose
peer is closed it raises `EOFError`, modelled as `none`. (The blocking case
— open peer, nothing buffered — cannot be reached here because `recv` is
only called after `poll()` returned true.) -/
def Pipe.recv (p : Pipe) : Option ((Nat × Nat) × Pipe) :=
  match p.pending with
  | x :: rest => some (x, { p with pending := rest })
  | [] => none

/-- The inner drain loop of `aggregate_statistics` (lines 156-163) on one
pipe: `while pipe.poll():` receive and accumulate, and on `EOFError`
`continue` — which re-enters the *inner* loop and polls the same pipe
again. Returns the pipe and accumulated `(interval_bytes,
interval_completed)` when the loop exits, or `none` when `fuel` iterations
were not enough for it to exit. -/
def drain_pipe : Nat → Pipe → Nat → Nat → Option (Pipe × Nat × Nat)
  | 0, _, _, _ => none
  | fuel + 1, p, bytes, completed =>
    if p.poll then
      match p.recv with
      | some ((b, c), p2) => drain_pipe fuel p2 (bytes + b) (completed + c)
      | none => drain_pipe fuel p bytes completed
    else some (p, bytes, completed)

/-- The per-second reporting state of `aggregate_statistics`
(lines 145-148). -/
structure AggState where
  interval_bytes : Nat
  interval_completed : Nat
  last_time : ℚ
deriving DecidableEq

/-- The reporting step of `aggregate_statistics` (lines 166-179): when a
full second has elapsed since `last_time`, compute and print
`(current_time - start_time, cps, throughput_gbps)` and reset both interval
counters; otherwise leave the state unchanged. -/
def report_tick (start_time : ℚ) (st : AggState) (current_time : ℚ) :
    Option (ℚ × ℚ × ℚ) × AggState :=
  if 1 ≤ current_time - st.last_time then
    let elapsed := current_time - st.last_time
    let throughput_gbps := ((st.interval_bytes : ℚ) * 8) / (elapsed * 10 ^ 9)
    let cps := (st.interval_completed : ℚ) / elapsed
    (some (current_time - start_time, cps, throughput_gbps),
      { interval_bytes := 0, interval_completed := 0, last_time := current_time })
  else (none, st)

/-- Line 208 of `run_client`:
`connections_per_process = max(1, max_connections // process_count)`. -/
def connections_per_process (max_connections process_count : Nat) : Nat :=
  max 1 (max_connections / process_count)

/-- The per-process connection shares `run_client` hands out (lines
207-222): every one of the `process_count` spawned processes receives the
same `connections_per_process` value. -/
def connection_shares (max_connections process_count : Nat) : List Nat :=
  List.replicate process_count (connections_per_process max_connections process_count)

/-- The startup phase of `run_client` (lines 199-222) after the manifest
file has been parsed into `config` (parsing, lines 200-205, fails only on a
malformed line; an empty file parses to `[]`): compute the per-process
share and spawn `process_count` worker processes, each given the full
config and that share. No emptiness check of `config` occurs anywhere
before spawning, so the returned list is the processes spawned. -/
def run_client_startup (config : List (String × ℚ))
    (max_connections process_count : Nat) :
    List (List (String × ℚ) × Nat) :=
  List.replicate process_count
    (config, connections_per_process max_connections process_count)

/-! Helper evaluation lemmas shared by the claim theorems. -/

theorem fileType_abin : fileType "a.bin" = "bin" := by decide

theorem fileType_bzip : fileType "b.zip" = "zip" := by decide

theorem fileType_cdocx : fileType "c.docx" = "docx" := by decide

theorem fileType_atxt : fileType "a.txt" = "txt" := by decide

theorem file_weights_txt : file_weights "txt" = 0 := rfl

theorem file_weights_zip : file_weights "zip" = 2/5 := rfl

theorem pyInt_40 : pyInt (40 : ℚ) = 40 := by
  norm_num [pyInt]
  decide

/-- One iteration of `connection_worker` always continues: whatever selection
and fetch produced, the `while True:` body ends back at the loop head. -/
theorem worker_step_snd_true (inp : WorkerIterInput) :
    (connection_worker_step inp).2 = true := by
  rcases inp with ⟨sel, outcome⟩
  cases sel <;> rfl

/-- The worker loop performs exactly one iteration per unit of fuel: it
never exits early. -/
theorem worker_run_length (fuel : Nat) :
    ∀ env, (connection_worker_run fuel env).length = fuel := by
  induction fuel with
  | zero => intro env; rfl
  | succ n ih => intro env; simp [connection_worker_run, ih]

/-- The 3-element scenario manifest of the design document's §8:
`[("a.bin", 1MB), ("b.zip", 2MB), ("c.docx", 4MB)]`. -/
def scenario_config : List (String × ℚ) := [("a.bin", 1), ("b.zip", 2), ("c.docx", 4)]

theorem tag_scenario : tag_files scenario_config =
    [(0, "a.bin", 1, "bin"), (1, "b.zip", 2, "zip"), (2, "c.docx", 4, "docx")] := by
  simp [scenario_config, tag_files, List.enum, List.enumFrom,
    fileType_abin, fileType_bzip, fileType_cdocx]

theorem close_scenario :
    close_files scenario_config 2 = [(1, "b.zip", 2, "zip")] := by
  rw [close_files, tag_scenario]
  norm_num [List.filter, close_pred, pyAbs]

theorem pool_scenario :
    weighted_files (candidate_files scenario_config 2) = List.replicate 40 1 := by
  rw [candidate_files, close_scenario, if_neg (List.cons_ne_nil _ _)]
  norm_num [weighted_files, file_weights_zip, pyInt_40]

/-! The claim theorems. -/

/-- C1: the claim says the selector never fails and, when no candidate has
positive type weight, falls back to uniform selection over the full
manifest. The code instead raises: on the one-entry manifest
`[("a.txt", 2MB)]` with `avg_object_size_mb = 2` the sole candidate has
type weight 0, the weighted pool is empty, and the fallback line
`random.choice([i for i, _, _ in config])` raises `ValueError` because it
unpacks the 2-tuples of `config` into three names — contradicting both the
comment directly above it ("fall back to any file of appropriate size") and
the design document. -/
theorem C1_fallback_raises_valueError :
    create_request_url [("a.txt", 2)] "127.0.0.1" 50 2 0 0 =
      .error .valueError := by
  have htag : tag_files [("a.txt", 2)] = [(0, "a.txt", 2, "txt")] := by
    simp [tag_files, List.enum, List.enumFrom, fileType_atxt]
  have hclose : close_files [("a.txt", 2)] 2 = [(0, "a.txt", 2, "txt")] := by
    rw [close_files, htag]
    norm_num [List.filter, close_pred, pyAbs]
  have hw : weighted_files [(0, "a.txt", 2, "txt")] = [] := by
    simp [weighted_files, file_weights_txt]
  have hsel : select_index [("a.txt", 2)] 2 0 = .error .valueError := by
    rw [select_index, candidate_files, hclose]
    simp [hclose, hw]
  simp [create_request_url, hsel]

/-- C2 counterexample: the claim says the Connection Worker checks the
deadline once per iteration and stops issuing requests after it passes. At
an elapsed wall-clock time of 100 s against a configured duration of 1 s,
the loop guard of `connection_worker` still evaluates to `true` (it is
`while True:`; the worker holds no deadline), and the iteration that
follows a long-past deadline still issues a request and emits a sample. -/
theorem C2_counterexample_no_deadline_check :
    connection_worker_continue 100 1 = true ∧
    connection_worker_step ⟨.ok 0, .success (some 5) 5⟩ = (some (5, 1), true) := by
  exact ⟨rfl, rfl⟩

/-- C2 amended: `connection_worker`'s request loop never terminates on its
own — its guard is the constant `true` regardless of elapsed time and
configured duration, every iteration continues, and a run of any fuel
performs exactly that many iterations. The wall-clock duration is enforced
only externally: the supervisor forcibly terminates the worker processes
after `aggregate_statistics` returns. -/
theorem C2_worker_loop_never_stops (elapsed duration : ℚ) (fuel : Nat)
    (env : Nat → WorkerIterInput) :
    connection_worker_continue elapsed duration = true ∧
    (connection_worker_step (env 0)).2 = true ∧
    (connection_worker_run fuel env).length = fuel :=
  ⟨rfl, worker_step_snd_true _, worker_run_length fuel env⟩

/-- C3: the claim (and the design document) says the aggregator treats a
channel signaling closure as "no more samples" and still terminates within
one tick past the configured duration. In the code, `except EOFError:
continue` re-enters the inner `while pipe.poll():` loop; on a pipe whose
peer end has closed, `poll()` keeps returning true (the EOF is readable)
and `recv()` keeps raising `EOFError`, so the drain loop never exits —
for every amount of fuel it fails to finish — and `aggregate_statistics`
never reaches its duration check again. -/
theorem C3_drain_loop_diverges_on_closed_pipe (fuel bytes completed : Nat) :
    drain_pipe fuel ⟨[], true⟩ bytes completed = none := by
  induction fuel with
  | zero => rfl
  | succ n ih => simp [drain_pipe, Pipe.poll, Pipe.recv, ih]

/-- C4 counterexample: the claim says that when the requested total is at
least the process count, the per-process shares sum to exactly the
requested total. With 10 requested connections over 4 processes each
process receives `max(1, 10 // 4) = 2`, so the shares sum to 8, not 10. -/
theorem C4_counterexample_shares_sum :
    4 ≤ 10 ∧ (connection_shares 10 4).sum = 8 ∧ (connection_shares 10 4).sum ≠ 10 := by
  decide

/-- C4 amended: `run_client` gives every one of the `process_count`
processes the identical share `max(1, max_connections // process_count)`
(so each share is at least 1 and any two shares differ by 0); the shares
sum to `process_count * max(1, max_connections // process_count)`, which
equals the requested total only when `process_count` divides it (with the
total at least the process count); otherwise the total is not preserved. -/
theorem C4_shares_uniform (total P : Nat) (hP : 0 < P) :
    (∀ s ∈ connection_shares total P, s = connections_per_process total P ∧ 1 ≤ s) ∧
    (connection_shares total P).sum = P * connections_per_process total P ∧
    (P ∣ total → P ≤ total → (connection_shares total P).sum = total) := by
  refine ⟨?_, ?_, ?_⟩
  · intro s hs
    have h := List.eq_of_mem_replicate hs
    exact ⟨h, h ▸ le_max_left 1 _⟩
  · rw [connection_shares, List.sum_replicate, smul_eq_mul]
  · intro hdvd hle
    have h1 : 1 ≤ total / P := (Nat.one_le_div_iff hP).mpr hle
    rw [connection_shares, List.sum_replicate, smul_eq_mul,
      connections_per_process, max_eq_right h1, Nat.mul_div_cancel' hdvd]

/-- C4 witness: with 12 requested connections over 4 processes the amended
statement's hypotheses hold and the shares sum to exactly 12. -/
theorem C4_shares_uniform_witness :
    (connection_shares 12 4).sum = 12 :=
  (C4_shares_uniform 12 4 (by decide)).2.2 (by decide) (by decide)

/-- C5 counterexample: the claim says the close set for the scenario
manifest with `size_affinity = 2` is exactly the entries with size in the
closed interval [1.0, 3.0] MB, i.e. both `a.bin` and `b.zip`. The code's
test is strict (`abs(size - avg) < 0.5 * avg`), so `a.bin` — size 1.0,
`|1 - 2| = 1`, not `< 1` — is excluded: the close set is `b.zip` alone. -/
theorem C5_counterexample_abin_not_close :
    close_files scenario_config 2 = [(1, "b.zip", 2, "zip")] ∧
    (0, "a.bin", (1 : ℚ), "bin") ∉ close_files scenario_config 2 := by
  refine ⟨close_scenario, ?_⟩
  rw [close_scenario]
  simp

/-- C5 amended: with the scenario manifest and `size_affinity = 2` the
close set is the entries with size strictly inside (1.0, 3.0) MB — `b.zip`
alone — the weighted pool is 40 copies of `b.zip`'s index, and every
possible `random.choice` draw selects `b.zip`; `a.bin` and `c.docx` are
never selected. -/
theorem C5_strict_close_bzip_always (k : Nat) :
    close_files scenario_config 2 = [(1, "b.zip", 2, "zip")] ∧
    select_index scenario_config 2 k = .ok 1 ∧
    scenario_config.getD 1 ("", 0) = ("b.zip", 2) := by
  refine ⟨close_scenario, ?_, rfl⟩
  have hne : (List.replicate 40 (1 : Nat)) ≠ [] := by simp
  have hk : k % (List.replicate 40 (1 : Nat)).length <
      (List.replicate 40 (1 : Nat)).length := by
    rw [List.length_replicate]
    exact Nat.mod_lt _ (by norm_num)
  simp only [select_index, pool_scenario]
  rw [if_neg hne, List.getD_eq_getElem _ _ hk, List.getElem_replicate]

/-- C6 counterexample: the claim says an empty manifest aborts the run at
startup, before any worker process is spawned. The code has no emptiness
check: `run_client` with an empty parsed config still spawns every worker
process (here 4 of them, at 300 requested connections), and the failure
instead surfaces inside the workers as a per-request `IndexError`
(`random.choice` over the empty manifest), caught and logged per attempt. -/
theorem C6_counterexample_empty_manifest_not_fatal :
    (run_client_startup [] 300 4).length = 4 ∧
    create_request_url [] "127.0.0.1" 50 2 0 0 = .error .indexError :=
  ⟨rfl, rfl⟩

/-- C6 amended: `run_client` performs no emptiness check on the manifest:
with an empty config it spawns all `process_count` worker processes, every
per-request selection inside a worker raises `IndexError`, and the worker
loop catches the exception and continues — the program does not abort at
startup and the failure is per-call, not fatal. -/
theorem C6_no_startup_emptiness_check (max_connections process_count : Nat)
    (avg : ℚ) (k : Nat) :
    (run_client_startup [] max_connections process_count).length = process_count ∧
    select_index [] avg k = .error .indexError ∧
    connection_worker_step ⟨.error .indexError, .failure "unreachable"⟩ =
      (none, true) := by
  refine ⟨by simp [run_client_startup], rfl, rfl⟩

/-- C7: a transport-level failure is caught inside `fetch_url` and comes
back as 0 bytes; `connection_worker` then sends the sample `(0, 1)` — a
zero-byte completed observation — down the stats pipe and continues; and no
iteration, whatever the selection and fetch produced, ever stops the loop
(there is no retry path at all: each iteration issues exactly one fetch). -/
theorem C7_failure_counts_zero_byte_completion (i : Nat) (msg : String)
    (inp : WorkerIterInput) :
    fetch_url (.failure msg) = 0 ∧
    connection_worker_step ⟨.ok i, .failure msg⟩ = (some (0, 1), true) ∧
    (connection_worker_step inp).2 = true :=
  ⟨rfl, rfl, worker_step_snd_true inp⟩

/-- C8: when a full second has elapsed, the reporting step computes
`throughput = interval_bytes * 8 / (elapsed * 1e9)` Gbps and
`cps = interval_completed / elapsed`, reports
`(elapsed-since-start, cps, throughput)`, and resets both interval
counters to zero. -/
theorem C8_report_window (b c : Nat) (s l t : ℚ) (h : 1 ≤ t - l) :
    report_tick s ⟨b, c, l⟩ t =
      (some (t - s, (c : ℚ) / (t - l), ((b : ℚ) * 8) / ((t - l) * 10 ^ 9)),
        ⟨0, 0, t⟩) := by
  rw [report_tick, if_pos h]

/-- C8 witness: a window holding accumulated samples of 125000000 bytes and
10 completions, reported at `current_time = 1` with `last_time = 0`, yields
exactly 1.0 Gbps and 10.0 CPS, and the counters reset. -/
theorem C8_report_window_witness :
    (1 : ℚ) ≤ 1 - 0 ∧
    report_tick 0 ⟨125000000, 10, 0⟩ 1 = (some (1, 10, 1), ⟨0, 0, 1⟩) := by
  have h : (1 : ℚ) ≤ 1 - 0 := by norm_num
  refine ⟨h, ?_⟩
  rw [C8_report_window 125000000 10 0 0 1 h]
  norm_num

/-- C9: when no manifest entry is within ±50% of the target size — the
close set is empty — the candidate set is the full (tagged, enumerated)
manifest. -/
theorem C9_close_empty_candidates_full (config : List (String × ℚ)) (avg : ℚ)
    (h : close_files config avg = []) :
    candidate_files config avg = tag_files config := by
  have h2 : close_files config avg = [] := h
  rw [close_files] at h2
  have hall := List.filter_eq_nil_iff.mp h2
  rw [candidate_files, if_pos h, other_files, List.filter_eq_self]
  intro a ha
  have hfa := hall a ha
  simp only [Bool.not_eq_true] at hfa
  simp [hfa]

/-- C9 witness: in the manifest `[("a.bin", 10MB)]` with target size 1 MB,
no entry is within ±50% of the target, and the candidate set is the full
manifest. -/
theorem C9_close_empty_candidates_full_witness :
    close_files [("a.bin", 10)] 1 = [] ∧
    candidate_files [("a.bin", 10)] 1 = tag_files [("a.bin", 10)] := by
  have htag : tag_files [("a.bin", 10)] = [(0, "a.bin", 10, "bin")] := by
    simp [tag_files, List.enum, List.enumFrom, fileType_abin]
  have h : close_files [("a.bin", 10)] 1 = [] := by
    rw [close_files, htag]
    norm_num [List.filter, close_pred, pyAbs]
  exact ⟨h, C9_close_empty_candidates_full _ _ h⟩

/-- C10: `fetch_url` is total — every failure is caught and yields 0 — and
on success it returns the declared `Content-Length` header value (0 when
the header is absent), not the number of body bytes actually read: a
response with no `Content-Length` whose body was fully read is recorded as
0 bytes. -/
theorem C10_fetch_returns_content_length (contentLength : Option Nat)
    (bodyBytes : Nat) (msg : String) (h : 0 < bodyBytes) :
    fetch_url (.success contentLength bodyBytes) = contentLength.getD 0 ∧
    fetch_url (.failure msg) = 0 ∧
    fetch_url (.success none bodyBytes) = 0 ∧
    fetch_url (.success none bodyBytes) ≠ bodyBytes := by
  exact ⟨rfl, rfl, rfl, h.ne⟩

/-- C10 witness: a fully read 12345-byte body with no `Content-Length`
header is recorded as 0 transferred bytes. -/
theorem C10_fetch_returns_content_length_witness :
    fetch_url (.success none 12345) = 0 ∧
    fetch_url (.success none 12345) ≠ 12345 := by
  have h := C10_fetch_returns_content_length none 12345 "timeout" (by decide)
  exact ⟨h.2.2.1, h.2.2.2⟩

end SwgClient
